import Mathlib

/-!
Verification of the handflip HTTP-over-SOCKS5 forward proxy core.

The development shallowly embeds the two load-bearing modules of the
repository:

* `src/handflip-core/src/socks5/client.rs` — the SOCKS5 client reply
  parser (`receive`), modelled as a function consuming a byte stream
  (`List Nat`, each element a `u8` value) and returning the outcome
  together with the unconsumed remainder of the stream.
* `src/handflip-core/src/http.rs` — target extraction
  (`host_port_from_req`), header rewriting, and the two request
  handlers (`handle_connect_request`, `handle_other_request`),
  modelled as pure functions that return the handler result together
  with the ordered trace of externally visible effects.

`src/handflip-core/src/error.rs` is embedded as the `Error` inductive.
-/

namespace Handflip

/-- The error enum of `src/handflip-core/src/error.rs`, one constructor
per variant, each carrying its message string. -/
inductive Error where
  | Io (msg : String)
  | Http (msg : String)
  | Parse (msg : String)
  | BadRequest (msg : String)
  | Server (msg : String)
deriving DecidableEq, Repr

/-! ## Byte-stream primitives -/

/-- Model of `AsyncReadExt::read_exact` into a buffer of `n` bytes: on a
stream with at least `n` bytes it yields the `n` bytes read and the
rest of the stream; on a shorter stream it fails (the Rust call returns
an `UnexpectedEof` I/O error). -/
def readExact (n : Nat) (s : List Nat) : Option (List Nat × List Nat) :=
  if n ≤ s.length then some (s.take n, s.drop n) else none

/-- Outcome of the SOCKS5 `receive` step: `ok` (the stream is usable),
`fail e` (the function returned `Err(e)`), or `panicked` (the
`String::from_utf8(..).unwrap()` call panicked on non-UTF-8 bytes). -/
inductive SocksOutcome where
  | ok
  | fail (e : Error)
  | panicked
deriving DecidableEq, Repr

/-- UTF-8 validity of a byte sequence, per the checking performed by
`String::from_utf8` (standard UTF-8: no overlong encodings, no
surrogates, maximum code point 0x10FFFF). -/
def validUtf8 : List Nat → Bool
  | [] => true
  | b :: rest =>
    if b < 0x80 then validUtf8 rest
    else if b < 0xC2 then false
    else if b < 0xE0 then
      match rest with
      | b1 :: r => decide (0x80 ≤ b1 ∧ b1 < 0xC0) && validUtf8 r
      | [] => false
    else if b < 0xF0 then
      match rest with
      | b1 :: b2 :: r =>
        let lo := if b = 0xE0 then 0xA0 else 0x80
        let hi := if b = 0xED then 0xA0 else 0xC0
        decide (lo ≤ b1 ∧ b1 < hi) && decide (0x80 ≤ b2 ∧ b2 < 0xC0) && validUtf8 r
      | _ => false
    else if b < 0xF5 then
      match rest with
      | b1 :: b2 :: b3 :: r =>
        let lo := if b = 0xF0 then 0x90 else 0x80
        let hi := if b = 0xF4 then 0x90 else 0xC0
        decide (lo ≤ b1 ∧ b1 < hi) && decide (0x80 ≤ b2 ∧ b2 < 0xC0) &&
          decide (0x80 ≤ b3 ∧ b3 < 0xC0) && validUtf8 r
      | _ => false
    else false

/-! ## SOCKS5 reply parsing (`receive` in `socks5/client.rs`)

The Rust function reads 2 bytes (version, status), dispatches on the
status byte, then on success reads the bound-address section: 2 bytes
(reserved, address type), the type-dependent address bytes, and a
2-byte port. The two `debug_assert_eq!` calls check nothing at runtime
and are not modelled. Each embedded function returns the outcome
together with the bytes left unconsumed on the stream. -/

/-- Final step of `receive`: read the 2-byte bound port. -/
def receivePort (s : List Nat) : SocksOutcome × List Nat :=
  match readExact 2 s with
  | none => (.fail (.Io "failed to fill whole buffer"), s)
  | some (_, s1) => (.ok, s1)

/-- Bound-address section of `receive`: read reserved + address-type
bytes, then the address per the type byte (`0x01` IPv4: 4 bytes;
`0x03` domain: 1 length byte then that many bytes, which the Rust code
feeds to `String::from_utf8(..).unwrap()`; `0x04` IPv6: 16 bytes; any
other type fails), then the port. -/
def receiveAddr (s : List Nat) : SocksOutcome × List Nat :=
  match readExact 2 s with
  | none => (.fail (.Io "failed to fill whole buffer"), s)
  | some (buf, s1) =>
    let atyp := buf.getD 1 0
    if atyp = 0x01 then
      match readExact 4 s1 with
      | none => (.fail (.Io "failed to fill whole buffer"), s1)
      | some (_, s2) => receivePort s2
    else if atyp = 0x03 then
      match readExact 1 s1 with
      | none => (.fail (.Io "failed to fill whole buffer"), s1)
      | some (lenBuf, s2) =>
        let domainLen := lenBuf.getD 0 0
        match readExact domainLen s2 with
        | none => (.fail (.Io "failed to fill whole buffer"), s2)
        | some (dom, s3) =>
          if validUtf8 dom then receivePort s3 else (.panicked, s3)
    else if atyp = 0x04 then
      match readExact 16 s1 with
      | none => (.fail (.Io "failed to fill whole buffer"), s1)
      | some (_, s2) => receivePort s2
    else (.fail (.Server "unsupported address type"), s1)

/-- The `receive` function of `socks5/client.rs`: read version and
status bytes, map the status byte to success or a `Server` error
(returning immediately on any non-zero status), and on success parse
the bound-address section. -/
def receive (s : List Nat) : SocksOutcome × List Nat :=
  match readExact 2 s with
  | none => (.fail (.Io "failed to fill whole buffer"), s)
  | some (buf, s1) =>
    let st := buf.getD 1 0
    if st = 0x00 then receiveAddr s1
    else if st = 0x01 then (.fail (.Server "general socks server failure"), s1)
    else if st = 0x02 then (.fail (.Server "connection not allowed by ruleset"), s1)
    else if st = 0x03 then (.fail (.Server "network unreachable"), s1)
    else if st = 0x04 then (.fail (.Server "host unreachable"), s1)
    else if st = 0x05 then (.fail (.Server "connection refused"), s1)
    else if st = 0x06 then (.fail (.Server "ttl expired"), s1)
    else if st = 0x07 then (.fail (.Server "command not supported"), s1)
    else if st = 0x08 then (.fail (.Server "address type not supported"), s1)
    else (.fail (.Server ("unknown socks server error type " ++ toString st)), s1)

/-- A `Server`-class failure outcome. -/
def serverClass : SocksOutcome → Bool
  | .fail (.Server _) => true
  | _ => false

/-! ## Target extraction (`host_port_from_req` in `http.rs`)

The Rust function reads `req.url().scheme()`, `req.url().host_str()`
and `req.url().port()`, splits the host string on the colon character,
and either takes the explicit `host:port` pair (when the split yields
exactly two pieces, parsing the second as a `u16`) or falls back to
the URL port, else the scheme default. Host strings are modelled as
`List Char`; schemes and header strings as `String`. -/

/-- Model of Rust `str::split(':').collect::<Vec<_>>()`: splits on
every colon, preserving empty pieces. -/
def splitColon : List Char → List (List Char)
  | [] => [[]]
  | c :: rest =>
    if c = ':' then [] :: splitColon rest
    else
      match splitColon rest with
      | [] => [[c]]
      | g :: gs => (c :: g) :: gs

/-- Digit-accumulation loop of Rust `u16::from_str`: each step checks
for a decimal digit and for overflow past `u16::MAX`, producing the
`ParseIntError` display messages on failure. -/
def parseDigits : List Char → Nat → Except String Nat
  | [], acc => .ok acc
  | c :: rest, acc =>
    if '0' ≤ c ∧ c ≤ '9' then
      let acc1 := acc * 10 + (c.toNat - '0'.toNat)
      if acc1 ≤ 65535 then parseDigits rest acc1
      else .error "number too large to fit in target type"
    else .error "invalid digit found in string"

/-- Model of Rust `str::parse::<u16>()`: empty input and a bare sign
are errors, an optional leading plus sign is stripped, then the digit
loop runs. A leading minus sign is not a digit for an unsigned type,
so it falls into the digit loop and fails there. -/
def parseU16 : List Char → Except String Nat
  | [] => .error "cannot parse integer from empty string"
  | ['+'] => .error "invalid digit found in string"
  | '+' :: rest => parseDigits rest 0
  | s => parseDigits s 0

/-- The `host_port_from_req` function of `http.rs`, over the three
URL observations it makes: scheme, optional host string, optional
explicit URL port. A missing host is an `Http` error; a two-piece
colon split takes the explicit port (a `Parse` error when the port
fails to parse); otherwise the URL port, else 443 for the `https`
scheme, else 80. -/
def host_port_from_req (scheme : String) (hostStr : Option (List Char))
    (urlPort : Option Nat) : Except Error (List Char × Nat) :=
  match hostStr with
  | none => .error (.Http "missing host in url")
  | some hs =>
    let hostSplits := splitColon hs
    if hostSplits.length = 2 then
      match parseU16 (hostSplits.getD 1 []) with
      | .ok port => .ok (hostSplits.getD 0 [], port)
      | .error msg => .error (.Parse msg)
    else
      let port :=
        match urlPort with
        | some p => p
        | none => if scheme == "https" then 443 else 80
      .ok (hostSplits.getD 0 [], port)

/-! ## Headers and requests

`http_types` stores header names ASCII-lowercased and looks them up
case-insensitively; the model normalises names on every comparison
and on insertion. A header map is a list of name-value pairs. -/

/-- ASCII lowercasing of one character, per
`u8::to_ascii_lowercase`. -/
def lowerChar (c : Char) : Char :=
  if 'A' ≤ c ∧ c ≤ 'Z' then Char.ofNat (c.toNat + 32) else c

/-- ASCII-lowercasing of a header name, per `http_types::HeaderName`
(which stores names ASCII-lowercased). -/
def normName (s : String) : String := ⟨s.data.map lowerChar⟩

/-- Model of `Request::remove_header` / `Response::remove_header`:
drops every value stored under the (case-insensitively compared)
name. -/
def removeHeader (name : String) (hs : List (String × String)) :
    List (String × String) :=
  hs.filter (fun kv => normName kv.1 != normName name)

/-- Model of `insert_header`: replaces any existing values under the
name with the single given value, stored under the lowercased name. -/
def insertHeader (name value : String) (hs : List (String × String)) :
    List (String × String) :=
  (normName name, value) :: removeHeader name hs

/-- Model of `header`: the first value stored under the
(case-insensitively compared) name, if any. -/
def getHeader (name : String) (hs : List (String × String)) :
    Option String :=
  (hs.find? (fun kv => normName kv.1 == normName name)).map (fun kv => kv.2)

/-- Request method: `CONNECT` or any other method (carrying its
name), matching the two-way dispatch in `handle_request`. -/
inductive Method where
  | connect
  | other (name : String)
deriving DecidableEq, Repr

/-- The decoded client request, restricted to the observations
`http.rs` makes of it: the method, the URL scheme, the URL host
string, the URL port, and the header map. -/
structure Request where
  method : Method
  scheme : String
  host : Option (List Char)
  urlPort : Option Nat
  headers : List (String × String)
deriving DecidableEq, Repr

/-- A decoded upstream response: status code and header map. -/
structure Response where
  status : Nat
  headers : List (String × String)
deriving DecidableEq, Repr

/-- Keep-alive intent as computed at the top of
`handle_other_request`: the request carries a `Proxy-Connection`
header whose value equals `Keep-Alive` exactly (case-sensitive value
comparison). -/
def keepAliveOf (req : Request) : Bool :=
  match getHeader "Proxy-Connection" req.headers with
  | some v => v == "Keep-Alive"
  | none => false

/-! ## Request handlers as effect traces

Each handler is embedded as a pure function from its inputs (the
decoded request, whether `Transport::connect` succeeds, and — for the
forwarding path — the upstream response that `client::connect`
decodes) to the handler result paired with the ordered list of
externally visible effects it performs. -/

/-- Externally visible effects of a handler, in order. -/
inductive Event where
  | connectUpstream (host : List Char) (port : Nat)
  | clientWriteStr (s : String)
  | clientSendResponse (status : Nat) (headers : List (String × String))
  | upstreamSendRequest (r : Request)
  | responseDecoded
  | relay
deriving DecidableEq, Repr

/-- The literal tunnel acknowledgment written by
`handle_connect_request` on upstream connect success. -/
def connectEstablished : String :=
  "HTTP/1.1 200 Connection established\r\n\r\n"

/-- The `handle_connect_request` function of `http.rs`: extract the
target (propagating its error with no effect performed), attempt the
upstream connection; on failure encode a 503 response to the client
and return `Ok`; on success write the literal acknowledgment bytes
and run the relay. -/
def handleConnectRequest (connectOk : Bool) (req : Request) :
    Except Error Unit × List Event :=
  match host_port_from_req req.scheme req.host req.urlPort with
  | .error e => (.error e, [])
  | .ok (host, port) =>
    if connectOk then
      (.ok (), [.connectUpstream host port,
                .clientWriteStr connectEstablished, .relay])
    else
      (.ok (), [.connectUpstream host port, .clientSendResponse 503 []])

/-- The `handle_other_request` function of `http.rs`: extract the
target, compute keep-alive intent, attempt the upstream connection
(failure: 503 to the client, return `Ok`); on success remove
`Proxy-Connection` unconditionally, then either (keep-alive) insert
`Connection: Keep-Alive`, send the request upstream and relay, or
(otherwise) insert `Connection: close`, send the request upstream,
decode exactly one response, insert `Connection: close` into it and
encode it back to the client. -/
def handleOtherRequest (connectOk : Bool) (req : Request)
    (upstreamResp : Response) : Except Error Unit × List Event :=
  match host_port_from_req req.scheme req.host req.urlPort with
  | .error e => (.error e, [])
  | .ok (host, port) =>
    let keepAlive := keepAliveOf req
    if connectOk then
      let req1 : Request :=
        { req with headers := removeHeader "Proxy-Connection" req.headers }
      if keepAlive then
        let req2 : Request :=
          { req1 with headers := insertHeader "Connection" "Keep-Alive" req1.headers }
        (.ok (), [.connectUpstream host port, .upstreamSendRequest req2, .relay])
      else
        let req2 : Request :=
          { req1 with headers := insertHeader "Connection" "close" req1.headers }
        let resp1 : Response :=
          { upstreamResp with
            headers := insertHeader "Connection" "close" upstreamResp.headers }
        (.ok (), [.connectUpstream host port, .upstreamSendRequest req2,
                  .responseDecoded,
                  .clientSendResponse resp1.status resp1.headers])
    else
      (.ok (), [.connectUpstream host port, .clientSendResponse 503 []])

/-- The `handle_request` dispatch of `http.rs`: `CONNECT` goes to the
tunnel handler, every other method to the forwarding handler. -/
def handleRequest (connectOk : Bool) (req : Request)
    (upstreamResp : Response) : Except Error Unit × List Event :=
  match req.method with
  | .connect => handleConnectRequest connectOk req
  | .other _ => handleOtherRequest connectOk req upstreamResp

/-- The `Transport` enum of `http.rs`: direct connection or
SOCKS5-mediated via the stored proxy address. -/
inductive Transport where
  | Direct
  | Socks5 (proxy : String)
deriving DecidableEq, Repr

/-- An error-result that is a `BadRequest`-class failure. -/
def isBadRequestErr {α : Type} : Except Error α → Bool
  | .error (.BadRequest _) => true
  | _ => false

/-- An error-result that is a failure of any class. -/
def isErr {α : Type} : Except Error α → Bool
  | .error _ => true
  | _ => false

/-! ## Helper lemmas -/

/-- Reading two bytes from a stream holding at least two bytes. -/
lemma readExact_two (a b : Nat) (rest : List Nat) :
    readExact 2 (a :: b :: rest) = some ([a, b], rest) := by
  simp [readExact]

/-- Second element of a two-element buffer. -/
lemma getD_pair_one (a b : Nat) : ([a, b] : List Nat).getD 1 0 = b := rfl

/-! ## Claims about the SOCKS5 reply parser -/

/-- C1 (counterexample): on the reply `[5, 1]` followed by a complete
IPv4 bound-address section, `receive` fails with the `Server` error
for status `0x01` but leaves all 8 bytes of the bound-address section
unconsumed on the stream — the section is not read before the call
returns, contrary to the claim. -/
theorem receive_nonzero_status_leaves_addr_unread :
    (receive [5, 1, 0, 1, 1, 2, 3, 4, 0, 80]).1 =
        .fail (.Server "general socks server failure") ∧
      (receive [5, 1, 0, 1, 1, 2, 3, 4, 0, 80]).2 = [0, 1, 1, 2, 3, 4, 0, 80] := by
  decide

/-- C1 (amended): for every reply whose status byte is non-zero, the
operation fails with a `Server`-class error and returns immediately;
the bound-address section is left unread on the stream (it is only
read on a success status). -/
theorem receive_nonzero_status_fails_immediately (b : Nat) (rest : List Nat)
    (hb : b ≠ 0) :
    serverClass (receive (5 :: b :: rest)).1 = true ∧
      (receive (5 :: b :: rest)).2 = rest := by
  simp only [receive, readExact_two, getD_pair_one]
  rw [if_neg hb]
  split_ifs <;> simp [serverClass]

/-- C1 (witness): instance of the amended claim at status byte 5 with
one pending byte. -/
theorem receive_nonzero_status_fails_immediately_witness :
    serverClass (receive [5, 5, 9]).1 = true ∧ (receive [5, 5, 9]).2 = [9] :=
  receive_nonzero_status_fails_immediately 5 [9] (by decide)

/-- C8 (code evaluated at the failing input): a successful-status
reply with domain-name bound address of length 1 completes when the
domain byte is valid UTF-8 (`0x68`), but the
`String::from_utf8(..).unwrap()` call panics when the byte is `0xFF`,
before the 2-byte port is read — the parse does not complete without
failure for every possible domain content. -/
theorem receive_domain_invalid_utf8_panics :
    receive [5, 0, 0, 3, 1, 0x68, 0, 80] = (.ok, []) ∧
      receive [5, 0, 0, 3, 1, 0xFF, 0, 80] = (.panicked, [0, 80]) := by
  decide

/-- C9: the SOCKS5 status byte mapping of `receive`: status `0x00`
proceeds to parse the bound address and returns the stream usable
(shown here with an IPv4 bound address), each status `0x01`–`0x08`
fails with its fixed human-readable `Server` message, and every other
status fails with the message naming that code. -/
theorem receive_status_mapping :
    (∀ a1 a2 a3 a4 p1 p2 rest, receive
        (5 :: 0 :: 0 :: 1 :: a1 :: a2 :: a3 :: a4 :: p1 :: p2 :: rest) =
        (.ok, rest)) ∧
    (∀ rest, receive (5 :: 1 :: rest) =
        (.fail (.Server "general socks server failure"), rest)) ∧
    (∀ rest, receive (5 :: 2 :: rest) =
        (.fail (.Server "connection not allowed by ruleset"), rest)) ∧
    (∀ rest, receive (5 :: 3 :: rest) =
        (.fail (.Server "network unreachable"), rest)) ∧
    (∀ rest, receive (5 :: 4 :: rest) =
        (.fail (.Server "host unreachable"), rest)) ∧
    (∀ rest, receive (5 :: 5 :: rest) =
        (.fail (.Server "connection refused"), rest)) ∧
    (∀ rest, receive (5 :: 6 :: rest) =
        (.fail (.Server "ttl expired"), rest)) ∧
    (∀ rest, receive (5 :: 7 :: rest) =
        (.fail (.Server "command not supported"), rest)) ∧
    (∀ rest, receive (5 :: 8 :: rest) =
        (.fail (.Server "address type not supported"), rest)) ∧
    (∀ b rest, 9 ≤ b → receive (5 :: b :: rest) =
        (.fail (.Server ("unknown socks server error type " ++ toString b)), rest)) := by
  refine ⟨?_, ?_, ?_, ?_, ?_, ?_, ?_, ?_, ?_, ?_⟩
  · intro a1 a2 a3 a4 p1 p2 rest
    simp [receive, receiveAddr, receivePort, readExact, getD_pair_one]
  · intro rest; simp [receive, readExact_two, getD_pair_one]
  · intro rest; simp [receive, readExact_two, getD_pair_one]
  · intro rest; simp [receive, readExact_two, getD_pair_one]
  · intro rest; simp [receive, readExact_two, getD_pair_one]
  · intro rest; simp [receive, readExact_two, getD_pair_one]
  · intro rest; simp [receive, readExact_two, getD_pair_one]
  · intro rest; simp [receive, readExact_two, getD_pair_one]
  · intro rest; simp [receive, readExact_two, getD_pair_one]
  · intro b rest h9
    simp only [receive, readExact_two, getD_pair_one]
    split_ifs <;> first | rfl | omega

/-- C9 (witness): instances of the mapping at the statuses the spec
names: `0x05`, `0x00` (with an IPv4 bound address), and the
unrecognized status `0x09`. -/
theorem receive_status_mapping_witness :
    receive [5, 5] = (.fail (.Server "connection refused"), []) ∧
      receive [5, 0, 0, 1, 10, 0, 0, 1, 0, 80] = (.ok, []) ∧
      receive [5, 9] =
        (.fail (.Server "unknown socks server error type 9"), []) :=
  ⟨receive_status_mapping.2.2.2.2.2.1 [],
   receive_status_mapping.1 10 0 0 1 0 80 [],
   receive_status_mapping.2.2.2.2.2.2.2.2.2 9 [] (by decide)⟩

/-- C10: on a successful-status reply whose bound-address type byte is
none of `0x01`, `0x03`, `0x04`, `receive` fails with the `Server`
error `unsupported address type` (and the failure propagates out of
`proxy()`), instead of returning a usable stream. -/
theorem receive_unsupported_addr_type (rsv atyp : Nat) (rest : List Nat)
    (h1 : atyp ≠ 1) (h3 : atyp ≠ 3) (h4 : atyp ≠ 4) :
    receive (5 :: 0 :: rsv :: atyp :: rest) =
      (.fail (.Server "unsupported address type"), rest) := by
  simp only [receive, readExact_two, getD_pair_one, if_pos rfl]
  simp only [receiveAddr, readExact_two, getD_pair_one]
  rw [if_neg h1, if_neg h3, if_neg h4]
  simp

/-- C10 (witness): instance at address type `0x05`. -/
theorem receive_unsupported_addr_type_witness :
    receive [5, 0, 0, 5] = (.fail (.Server "unsupported address type"), []) :=
  receive_unsupported_addr_type 0 5 [] (by decide) (by decide) (by decide)

/-! ## Helper lemmas about splitting and headers -/

/-- Splitting a colon-free string yields the single whole piece. -/
lemma splitColon_of_not_mem (s : List Char) (h : ':' ∉ s) : splitColon s = [s] := by
  induction s with
  | nil => rfl
  | cons c cs ih =>
    simp only [List.mem_cons, not_or] at h
    simp only [splitColon]
    rw [if_neg (fun hc => h.1 hc.symm)]
    rw [ih h.2]

/-- Splitting at the first colon of a string whose head piece is
colon-free. -/
lemma splitColon_append (h1 t : List Char) (h : ':' ∉ h1) :
    splitColon (h1 ++ ':' :: t) = h1 :: splitColon t := by
  induction h1 with
  | nil => simp [splitColon]
  | cons c cs ih =>
    simp only [List.mem_cons, not_or] at h
    simp only [List.cons_append, splitColon]
    rw [if_neg (fun hc => h.1 hc.symm)]
    rw [show (cs.append (':' :: t)) = cs ++ ':' :: t from rfl, ih h.2]

/-- Filtering by a predicate implied by the search predicate does not
change the result of the search. -/
lemma find?_filter_of_imp {α : Type} (p q : α → Bool) (hs : List α)
    (hpq : ∀ a, p a = true → q a = true) :
    (hs.filter q).find? p = hs.find? p := by
  induction hs with
  | nil => rfl
  | cons a tl ih =>
    by_cases hq : q a = true
    · rw [List.filter_cons_of_pos hq]
      by_cases hp : p a = true
      · rw [List.find?_cons_of_pos _ hp, List.find?_cons_of_pos _ hp]
      · rw [List.find?_cons_of_neg _ hp, List.find?_cons_of_neg _ hp, ih]
    · have hp : ¬ p a = true := fun hpa => hq (hpq a hpa)
      rw [List.filter_cons_of_neg hq, List.find?_cons_of_neg _ hp, ih]

/-- A removed header cannot be found. -/
lemma getHeader_removeHeader_self (n : String) (hs : List (String × String)) :
    getHeader n (removeHeader n hs) = none := by
  induction hs with
  | nil => rfl
  | cons kv tl ih =>
    simp only [removeHeader] at ih ⊢
    by_cases h : (normName kv.1 == normName n) = true
    · rw [List.filter_cons_of_neg (by simp [bne, h])]
      exact ih
    · rw [List.filter_cons_of_pos (by simp [bne]; simpa using h)]
      simp only [getHeader] at ih ⊢
      rw [List.find?_cons_of_neg _ (by simpa using h)]
      exact ih

/-- Inserting `Connection` makes it readable with that value. -/
lemma getHeader_conn_insert (v : String) (hs : List (String × String)) :
    getHeader "Connection" (insertHeader "Connection" v hs) = some v := by
  simp only [getHeader, insertHeader]
  rw [List.find?_cons_of_pos (p := fun kv => normName kv.1 == normName "Connection")
    (a := (normName "Connection", v)) _
    (by show (normName (normName "Connection") == normName "Connection") = true
        decide)]
  rfl

/-- After removing `Proxy-Connection` and inserting a `Connection`
value, no `Proxy-Connection` header remains readable. -/
lemma getHeader_pc_strip (v : String) (hs : List (String × String)) :
    getHeader "Proxy-Connection"
      (insertHeader "Connection" v (removeHeader "Proxy-Connection" hs)) = none := by
  simp only [getHeader, insertHeader]
  rw [List.find?_cons_of_neg (p := fun kv => normName kv.1 == normName "Proxy-Connection")
    (a := (normName "Connection", v)) _
    (by show ¬ (normName (normName "Connection") == normName "Proxy-Connection") = true
        decide)]
  simp only [removeHeader]
  rw [find?_filter_of_imp _ _ _ ?imp]
  · exact getHeader_removeHeader_self "Proxy-Connection" hs
  case imp =>
    intro a ha
    have h2 : normName a.1 = normName "Proxy-Connection" := by simpa using ha
    rw [h2]
    decide

/-! ## Claims about the HTTP proxy engine -/

/-- C2 (counterexample): a request URL with no host makes target
extraction fail, but with an `Http`-class error, not a
`BadRequest`-class one as claimed. -/
theorem missing_host_not_bad_request_cex :
    isErr (host_port_from_req "http" none none) = true ∧
      isBadRequestErr (host_port_from_req "http" none none) = false := by
  decide

/-- C2 (amended): for every client request whose URL has no host,
target extraction fails with the `Http`-class error
`missing host in url`, and the handling of the connection is aborted
with that error, with no upstream connection attempted and no bytes
sent to the client (the effect trace is empty). -/
theorem missing_host_aborts_with_http_error (m : Method) (scheme : String)
    (urlPort : Option Nat) (headers : List (String × String)) (connectOk : Bool)
    (resp : Response) :
    handleRequest connectOk ⟨m, scheme, none, urlPort, headers⟩ resp =
      (.error (.Http "missing host in url"), []) := by
  cases m <;>
    simp [handleRequest, handleConnectRequest, handleOtherRequest, host_port_from_req]

/-- C3: for every request whose URL has a host, the derived target is
the explicit `host:port` when the host string contains one (a
colon-free host, a colon, and a piece that parses as a `u16` port);
otherwise the host with the explicit URL port if present, else 443
for the `https` scheme, else 80. -/
theorem host_port_derivation :
    (∀ (scheme : String) (urlPort : Option Nat) (h pstr : List Char) (p : Nat),
        ':' ∉ h → ':' ∉ pstr → parseU16 pstr = .ok p →
        host_port_from_req scheme (some (h ++ ':' :: pstr)) urlPort = .ok (h, p)) ∧
    (∀ (scheme : String) (urlPort : Option Nat) (hs : List Char),
        ':' ∉ hs →
        host_port_from_req scheme (some hs) urlPort =
          .ok (hs, urlPort.getD (if scheme == "https" then 443 else 80))) := by
  constructor
  · intro scheme urlPort h pstr p hh hp hparse
    simp only [host_port_from_req, splitColon_append h pstr hh,
      splitColon_of_not_mem pstr hp]
    simp [hparse]
  · intro scheme urlPort hs hhs
    simp only [host_port_from_req, splitColon_of_not_mem hs hhs]
    cases urlPort <;> simp

/-- C3 (witness): explicit `a:81` takes port 81; scheme-default
`https` host takes port 443. -/
theorem host_port_derivation_witness :
    host_port_from_req "http" (some ['a', ':', '8', '1']) none = .ok (['a'], 81) ∧
      host_port_from_req "https" (some ['a']) none = .ok (['a'], 443) := by
  constructor
  · exact host_port_derivation.1 "http" none ['a'] ['8', '1'] 81
      (by decide) (by decide) rfl
  · have h := host_port_derivation.2 "https" none ['a'] (by decide)
    simpa using h

/-- C4: for every `CONNECT` request whose upstream connection
succeeds, the handler performs exactly: the connect, the write of the
literal acknowledgment bytes to the client, then the relay — the
literal being exactly `HTTP/1.1 200 Connection established` followed
by two CRLF pairs with no other headers. -/
theorem connect_success_writes_established (req : Request) (resp : Response)
    (h : List Char) (p : Nat)
    (hm : req.method = .connect)
    (hhp : host_port_from_req req.scheme req.host req.urlPort = .ok (h, p)) :
    handleRequest true req resp =
      (.ok (), [.connectUpstream h p, .clientWriteStr connectEstablished, .relay]) ∧
    connectEstablished = "HTTP/1.1 200 Connection established\r\n\r\n" := by
  constructor
  · simp [handleRequest, hm, handleConnectRequest, hhp]
  · rfl

/-- C4 (witness): instance at a concrete `CONNECT` request. -/
theorem connect_success_writes_established_witness :
    handleRequest true ⟨.connect, "http", some ['e'], none, []⟩ ⟨200, []⟩ =
      (.ok (), [.connectUpstream ['e'] 80, .clientWriteStr connectEstablished, .relay]) :=
  (connect_success_writes_established ⟨.connect, "http", some ['e'], none, []⟩
    ⟨200, []⟩ ['e'] 80 rfl rfl).1

/-- C5: for every request (any method) whose upstream connection
fails, the handler performs exactly the connect attempt followed by a
503 response to the client, and returns `Ok`: no relay is run, no
request bytes are sent upstream, and the handler's error path is not
taken. -/
theorem connect_failure_sends_503 (req : Request) (resp : Response)
    (h : List Char) (p : Nat)
    (hhp : host_port_from_req req.scheme req.host req.urlPort = .ok (h, p)) :
    handleRequest false req resp =
      (.ok (), [.connectUpstream h p, .clientSendResponse 503 []]) := by
  obtain ⟨m, scheme, host, urlPort, headers⟩ := req
  cases m <;>
    simp [handleRequest, handleConnectRequest, handleOtherRequest, hhp]

/-- C5 (witness): instance at a concrete `GET` request. -/
theorem connect_failure_sends_503_witness :
    handleRequest false ⟨.other "GET", "http", some ['e'], none, []⟩ ⟨200, []⟩ =
      (.ok (), [.connectUpstream ['e'] 80, .clientSendResponse 503 []]) :=
  connect_failure_sends_503 ⟨.other "GET", "http", some ['e'], none, []⟩
    ⟨200, []⟩ ['e'] 80 rfl

/-- C6: for every non-`CONNECT` request, whatever the presence or
value of a `Proxy-Connection` header in the client request, every
request forwarded upstream by the handler carries no
`Proxy-Connection` header. -/
theorem forwarded_request_strips_proxy_connection
    (connectOk : Bool) (req : Request) (resp : Response) (r : Request)
    (hr : Event.upstreamSendRequest r ∈ (handleOtherRequest connectOk req resp).2) :
    getHeader "Proxy-Connection" r.headers = none := by
  cases hhp : host_port_from_req req.scheme req.host req.urlPort with
  | error e =>
    simp [handleOtherRequest, hhp] at hr
  | ok hp =>
    obtain ⟨h, p⟩ := hp
    cases connectOk with
    | false => simp [handleOtherRequest, hhp] at hr
    | true =>
      cases hka : keepAliveOf req with
      | true =>
        simp [handleOtherRequest, hhp, hka] at hr
        subst hr
        exact getHeader_pc_strip _ _
      | false =>
        simp [handleOtherRequest, hhp, hka] at hr
        subst hr
        exact getHeader_pc_strip _ _

/-- C6 (witness): instance at a request that does carry
`Proxy-Connection: Keep-Alive`; the request forwarded upstream has no
readable `Proxy-Connection` header. -/
theorem forwarded_request_strips_proxy_connection_witness :
    getHeader "Proxy-Connection"
      (insertHeader "Connection" "Keep-Alive"
        (removeHeader "Proxy-Connection" [("proxy-connection", "Keep-Alive")])) = none :=
  forwarded_request_strips_proxy_connection true
    ⟨.other "GET", "http", some ['e'], none, [("proxy-connection", "Keep-Alive")]⟩
    ⟨200, []⟩
    ⟨.other "GET", "http", some ['e'], none,
      insertHeader "Connection" "Keep-Alive"
        (removeHeader "Proxy-Connection" [("proxy-connection", "Keep-Alive")])⟩
    (by decide)

/-- C7: for every non-`CONNECT` request without keep-alive intent
whose upstream connection succeeds, the handler performs exactly one
upstream exchange: it sends the rewritten request upstream, decodes
exactly one response, and sends that response to the client, with no
relay; the forwarded request reads `Connection: close` and no
`Proxy-Connection`, and the forwarded response reads
`Connection: close`. -/
theorem non_keep_alive_single_exchange (req : Request) (resp : Response)
    (h : List Char) (p : Nat)
    (hhp : host_port_from_req req.scheme req.host req.urlPort = .ok (h, p))
    (hka : keepAliveOf req = false) :
    handleOtherRequest true req resp =
      (.ok (), [.connectUpstream h p,
        .upstreamSendRequest { req with headers := insertHeader "Connection" "close" (removeHeader "Proxy-Connection" req.headers) },
        .responseDecoded,
        .clientSendResponse resp.status
          (insertHeader "Connection" "close" resp.headers)]) ∧
    getHeader "Connection"
        (insertHeader "Connection" "close"
          (removeHeader "Proxy-Connection" req.headers)) = some "close" ∧
    getHeader "Proxy-Connection"
        (insertHeader "Connection" "close"
          (removeHeader "Proxy-Connection" req.headers)) = none ∧
    getHeader "Connection" (insertHeader "Connection" "close" resp.headers) =
      some "close" := by
  refine ⟨?_, getHeader_conn_insert _ _, getHeader_pc_strip _ _,
    getHeader_conn_insert _ _⟩
  simp [handleOtherRequest, hhp, hka]

/-- C7 (witness): instance at a concrete request with no
`Proxy-Connection` header; the forwarded request reads
`Connection: close`. -/
theorem non_keep_alive_single_exchange_witness :
    getHeader "Connection"
        (insertHeader "Connection" "close" (removeHeader "Proxy-Connection" [])) =
      some "close" :=
  (non_keep_alive_single_exchange
    ⟨.other "GET", "http", some ['e'], none, []⟩ ⟨200, []⟩ ['e'] 80
    rfl (by decide)).2.1

end Handflip
